import Mathlib

/-!
# Verification of the keploy/pilot reconciler

Shallow embedding of the alignment / reconciliation / swap core of the
`keploy/pilot` tool.  The repository ships two variants of the same program
(one built against the v1 keploy server API, one against the v2 API); both
variants of `main.go` and `util.go` are embedded here, suffixed `V1` / `V2`.
External collaborators (the yaml store, the differential matcher
`AbsMatch`, the noise loader's file system) are modelled as explicit inputs
gathered in a `World`.  Go's in-place slice sorting (`sort.Slice`,
`sort.Strings`) is modelled with `List.insertionSort`, which produces the
same ascending order (`sort.Slice` is an unstable sort, so tie order among
equal keys is unspecified in the source; any sorted permutation is a
faithful model).
-/

/-- The key under which the test-bench correlation id is stored in the
request header map (`readTcs2[i].HttpReq.Header["Keploy-Test-Id"]` in
`main.go`, v1 variant). -/
def keployTestIdKey : String := "Keploy-Test-Id"

/-- Request half of a recorded test case (`models.HttpReq` / v2
`models.HTTPReq`): only the fields the core reads — the header map and the
timestamp.  Timestamps (`time.Time`) are opaque values to the core, modelled
as `Int`. -/
structure HttpReq where
  header : List (String × String)
  timestamp : Int
deriving DecidableEq

/-- Response half of a recorded test case; the core only touches its
timestamp. -/
structure HttpResp where
  timestamp : Int
deriving DecidableEq

/-- A recorded test case (`models.TestCase`): operator-assigned `Name`,
request and response. -/
structure TestCase where
  name : String
  httpReq : HttpReq
  httpResp : HttpResp
deriving DecidableEq

/-- Go map lookup with the zero value `""` for a missing key, as in
`tc.HttpReq.Header["Keploy-Test-Id"]`. -/
def headerGet (h : List (String × String)) (k : String) : String :=
  match h.lookup k with
  | some v => v
  | none => ""

/-- The correlation key of a test case: the `Keploy-Test-Id` request
header. -/
def keployTestId (tc : TestCase) : String :=
  headerGet tc.httpReq.header keployTestIdKey

/-- Sort key of the pre-recorded (root-A) collection: ascending `Name`
(`readTcs1[i].Name < readTcs1[j].Name`). -/
def leName (a b : TestCase) : Prop := a.name ≤ b.name

instance : DecidableRel leName := fun a b =>
  inferInstanceAs (Decidable (a.name ≤ b.name))

instance : IsTotal TestCase leName := ⟨fun a b => le_total a.name b.name⟩

instance : IsTrans TestCase leName := ⟨fun _ _ _ h1 h2 => le_trans h1 h2⟩

/-- Sort key of the test-bench (root-B) collection in the v1 variant:
ascending `Keploy-Test-Id` header. -/
def leTestId (a b : TestCase) : Prop := keployTestId a ≤ keployTestId b

instance : DecidableRel leTestId := fun a b =>
  inferInstanceAs (Decidable (keployTestId a ≤ keployTestId b))

instance : IsTotal TestCase leTestId :=
  ⟨fun a b => le_total (keployTestId a) (keployTestId b)⟩

instance : IsTrans TestCase leTestId := ⟨fun _ _ _ h1 h2 => le_trans h1 h2⟩

/-- `sort.Slice(readTcs1, ...Name < ...Name)`: ascending sort by `Name`. -/
def sortByName (l : List TestCase) : List TestCase := l.insertionSort leName

/-- `sort.Slice(readTcs2, ...Header["Keploy-Test-Id"] < ...)`: ascending
sort by the correlation key (v1 variant only). -/
def sortByTestId (l : List TestCase) : List TestCase := l.insertionSort leTestId

/-- `sort.Strings`: ascending lexicographic sort of session identifiers.
In Go this sorts the slice in place; callers of `compareSessions` therefore
see their session lists sorted afterwards, which the `mainRun` models
reproduce by re-sorting. -/
def sortStrings (l : List String) : List String :=
  l.insertionSort (· ≤ ·)

/-- Outcome of `compareSessions` (`util.go`), together with what the
function logs before returning `false`: either the two counts, or the
first disagreeing pair of (sorted) session names. -/
inductive SessionCmp
  | ok
  | countMismatch (n1 n2 : Nat)
  | nameMismatch (a b : String)
deriving DecidableEq

/-- The index loop of `compareSessions`: walk the two (equal-length,
already sorted) lists and stop at the first disagreeing pair.  The
`(_ :: _, [])` case is unreachable under the caller's length guard. -/
def sessionLoop : List String → List String → SessionCmp
  | [], _ => .ok
  | a :: as, b :: bs => if a ≠ b then .nameMismatch a b else sessionLoop as bs
  | _ :: _, [] => .ok

/-- `compareSessions` (`util.go`, identical in both variants), refined with
the discrepancy it logs: length check on the raw lists first, then the
index loop over the two independently sorted lists. -/
def compareSessionsR (s1 s2 : List String) : SessionCmp :=
  if s1.length ≠ s2.length then .countMismatch s1.length s2.length
  else sessionLoop (sortStrings s1) (sortStrings s2)

/-- `compareSessions`'s boolean result. -/
def compareSessions (s1 s2 : List String) : Bool :=
  match compareSessionsR s1 s2 with
  | .ok => true
  | _ => false

/-- A noise mask: field-path to matching rules (`models.GlobalNoise` /
`config.GlobalNoise` maps). -/
def NoiseMask : Type := String → Option (List String)

/-- The empty noise mask. -/
def emptyNoiseMask : NoiseMask := fun _ => none

/-- The loaded noise configuration: a global mask plus a per-session
override table (`config.Globalnoise` with fields `Global` and
`Testsets`). -/
structure Globalnoise where
  global : NoiseMask
  testsets : String → Option NoiseMask

/-- The zero value of the configuration: empty global mask, empty override
table. -/
def emptyGlobalnoise : Globalnoise :=
  { global := emptyNoiseMask, testsets := fun _ => none }

/-- Modelled from the spec: `LeftJoinNoise` is defined in the external
`go.keploy.io/server` packages (`test.LeftJoinNoise` in v1,
`replay.LeftJoinNoise` in v2), not in this repository.  The spec describes
it as a left join: the result keeps every Global key not present in the
Override, plus every Override key, with the Override's value for
overlapping keys. -/
def leftJoinNoise (global tsNoise : NoiseMask) : NoiseMask :=
  fun path =>
    match tsNoise path with
    | some v => some v
    | none => global path

/-- Per-session noise resolution in `compareTestCases` (both variants):
start from the global mask and left-join the session's override when the
override table has an entry for the session. -/
def resolveNoise (n : Globalnoise) (session : String) : NoiseMask :=
  match n.testsets session with
  | some ts => leftJoinNoise n.global ts
  | none => n.global

/-- State of the noise-configuration source as the loader can observe it:
absent, present but malformed, or present and well formed. -/
inductive ConfigSrc
  | absent
  | malformed
  | present (g : Globalnoise)

/-- Error text of the v1 loader when the file is missing. -/
def cfgAbsentErrV1 : String := "config file does not exist"

/-- Error text of the v1 loader when the file cannot be parsed. -/
def cfgParseErrV1 : String := "failed to read test config from the config file"

/-- Error text of the v2 loader when the file is present but unreadable or
malformed (`errors.New("failed to read config file")` /
`errors.New("failed to unmarshal the config")`). -/
def cfgParseErrV2 : String := "failed to read config file"

/-- `GetNoiseFromConfig` (`util.go`, v1 variant): a missing file is itself
reported as an error; any error comes with the zero masks. -/
def getNoiseFromConfigV1 : ConfigSrc → Globalnoise × Option String
  | .absent => (emptyGlobalnoise, some cfgAbsentErrV1)
  | .malformed => (emptyGlobalnoise, some cfgParseErrV1)
  | .present g => (g, none)

/-- `GetNoiseFromConfig` (`util.go`, v2 variant): `ConfigFileNotFoundError`
is swallowed (empty masks, no error); a present but malformed file returns
the parse error, still with the zero masks. -/
def getNoiseFromConfigV2 : ConfigSrc → Globalnoise × Option String
  | .absent => (emptyGlobalnoise, none)
  | .malformed => (emptyGlobalnoise, some cfgParseErrV2)
  | .present g => (g, none)

/-- The Test Case Aligner of the v1 variant: sort root-A by `Name`, root-B
by the `Keploy-Test-Id` header, fail with both counts if the lengths
differ (`logger.Error(..., zap.Int(len1), zap.Int(len2)); return false`),
otherwise pair positionally (the `for i` loops over both slices). -/
def alignV1 (tcs1 tcs2 : List TestCase) :
    Except (Nat × Nat) (List (TestCase × TestCase)) :=
  let s1 := sortByName tcs1
  let s2 := sortByTestId tcs2
  if s1.length ≠ s2.length then .error (s1.length, s2.length)
  else .ok (s1.zip s2)

/-- The Test Case Aligner of the v2 variant: both collections are sorted by
`Name` (`readTcs2[i].Name < readTcs2[j].Name` in both `compareTestCases`
and `prepareMockAssertion`), then paired positionally. -/
def alignV2 (tcs1 tcs2 : List TestCase) :
    Except (Nat × Nat) (List (TestCase × TestCase)) :=
  let s1 := sortByName tcs1
  let s2 := sortByName tcs2
  if s1.length ≠ s2.length then .error (s1.length, s2.length)
  else .ok (s1.zip s2)

instance {ε α : Type} [DecidableEq ε] [DecidableEq α] :
    DecidableEq (Except ε α) := fun x y =>
  match x, y with
  | .error a, .error b =>
    if h : a = b then .isTrue (by rw [h]) else .isFalse (by simp [h])
  | .ok a, .ok b =>
    if h : a = b then .isTrue (by rw [h]) else .isFalse (by simp [h])
  | .error _, .ok _ => .isFalse (by simp)
  | .ok _, .error _ => .isFalse (by simp)

/-- The timestamp exchange of one aligned pair (`PrepareMockAssertion` /
`prepareMockAssertion`): save both request timestamps, assign them crosswise,
then the same for the response timestamps.  All other fields are untouched. -/
def swapTimestamps (a b : TestCase) : TestCase × TestCase :=
  ({ a with
      httpReq := { a.httpReq with timestamp := b.httpReq.timestamp }
      httpResp := { a.httpResp with timestamp := b.httpResp.timestamp } },
   { b with
      httpReq := { b.httpReq with timestamp := a.httpReq.timestamp }
      httpResp := { b.httpResp with timestamp := a.httpResp.timestamp } })

/-- The per-pair loop of swap mode: check `Name` equality first; on the
first mismatch stop with the two names (what `logger.Error` reports before
`return false`), performing no exchange or persistence for that pair.
Returns the pairs persisted (already swapped, in order) and the mismatch,
if any. -/
def swapPairs : List (TestCase × TestCase) →
    List (TestCase × TestCase) × Option (String × String)
  | [] => ([], none)
  | (a, b) :: rest =>
    if a.name = b.name then
      let r := swapPairs rest
      (swapTimestamps a b :: r.1, r.2)
    else ([], some (a.name, b.name))

/-- Observable side effects of a run: a comparison handed to the external
matcher, a test-case update persisted to one of the two stores, or a
mock-fixture file swap. -/
inductive Event
  | compared (session nameA nameB : String)
  | updated (bench : Bool) (session : String) (name : String)
  | mockSwapped (session : String)
deriving DecidableEq

/-- The abstract world a run executes against: the two session-index
listings, the per-session test-case collections of both roots, the state of
the configuration source, and the external differential matcher's verdict
(`test.AbsMatch` / `replay.AbsMatch`, out of scope of this repository). -/
structure World where
  tsets1 : List String
  tsets2 : List String
  tcsA : String → List TestCase
  tcsB : String → List TestCase
  config : ConfigSrc
  matcher : TestCase → TestCase → NoiseMask → Bool

/-- One session of `compareTestCases`, v2 variant: align (returning `none`
on the cardinality `return false`), then feed every pair to the matcher;
the session verdict is the conjunction, and every pair is compared even
after a failure. -/
def compareSessionV2 (tcsA tcsB : String → List TestCase)
    (matcher : TestCase → TestCase → NoiseMask → Bool) (nc : NoiseMask)
    (s : String) : Option (Bool × List Event) :=
  match alignV2 (tcsA s) (tcsB s) with
  | .error _ => none
  | .ok pairs =>
    some (pairs.all fun p => matcher p.1 p.2 nc,
          pairs.map fun p => Event.compared s p.1.name p.2.name)

/-- The session loop of `compareTestCases`, v2 variant: a cardinality
mismatch aborts the whole function (`return false`), while matcher
failures only clear `passedOverall` and the loop continues. -/
def compareLoopV2 (tcsA tcsB : String → List TestCase)
    (matcher : TestCase → TestCase → NoiseMask → Bool) (noise : Globalnoise) :
    List String → Bool × List Event
  | [] => (true, [])
  | s :: rest =>
    match compareSessionV2 tcsA tcsB matcher (resolveNoise noise s) s with
    | none => (false, [])
    | some r =>
      let r2 := compareLoopV2 tcsA tcsB matcher noise rest
      (r.1 && r2.1, r.2 ++ r2.2)

/-- `compareTestCases` (v2 variant): load the noise configuration —
ignoring any loader error (`logger.Info(...); continue`) — then run the
session loop. -/
def compareTestCasesV2 (w : World) (sessions : List String) :
    Bool × List Event :=
  compareLoopV2 w.tcsA w.tcsB w.matcher (getNoiseFromConfigV2 w.config).1 sessions

/-- One session of `compareTestCases`, v1 variant: identical to v2 except
that the aligner sorts root-B by the correlation header. -/
def compareSessionV1 (tcsA tcsB : String → List TestCase)
    (matcher : TestCase → TestCase → NoiseMask → Bool) (nc : NoiseMask)
    (s : String) : Option (Bool × List Event) :=
  match alignV1 (tcsA s) (tcsB s) with
  | .error _ => none
  | .ok pairs =>
    some (pairs.all fun p => matcher p.1 p.2 nc,
          pairs.map fun p => Event.compared s p.1.name p.2.name)

/-- The session loop of `compareTestCases`, v1 variant. -/
def compareLoopV1 (tcsA tcsB : String → List TestCase)
    (matcher : TestCase → TestCase → NoiseMask → Bool) (noise : Globalnoise) :
    List String → Bool × List Event
  | [] => (true, [])
  | s :: rest =>
    match compareSessionV1 tcsA tcsB matcher (resolveNoise noise s) s with
    | none => (false, [])
    | some r =>
      let r2 := compareLoopV1 tcsA tcsB matcher noise rest
      (r.1 && r2.1, r.2 ++ r2.2)

/-- `compareTestCases` (v1 variant): an empty session list is rejected up
front (`logger.Error("no sessions found"); return false`); the noise
loader's error is ignored (its `return false` is commented out in the
source). -/
def compareTestCasesV1 (w : World) (sessions : List String) :
    Bool × List Event :=
  if sessions.isEmpty then (false, [])
  else compareLoopV1 w.tcsA w.tcsB w.matcher (getNoiseFromConfigV1 w.config).1 sessions

/-- One session of swap mode, v2 variant: align (both sides sorted by
`Name`), run the per-pair swap loop — persisting each swapped pair to both
stores — and on full success swap the two `mocks.yaml` fixtures. -/
def prepareMockSessionV2 (tcsA tcsB : String → List TestCase) (s : String) :
    Bool × List Event :=
  match alignV2 (tcsA s) (tcsB s) with
  | .error _ => (false, [])
  | .ok pairs =>
    let r := swapPairs pairs
    let evs := r.1.flatMap fun p =>
      [Event.updated false s p.1.name, Event.updated true s p.2.name]
    match r.2 with
    | some _ => (false, evs)
    | none => (true, evs ++ [Event.mockSwapped s])

/-- The session loop of swap mode (both variants share its shape): any
session failure returns `false` immediately, leaving earlier sessions'
writes committed. -/
def prepareMockLoopV2 (tcsA tcsB : String → List TestCase) :
    List String → Bool × List Event
  | [] => (true, [])
  | s :: rest =>
    let r := prepareMockSessionV2 tcsA tcsB s
    if r.1 then
      let r2 := prepareMockLoopV2 tcsA tcsB rest
      (r2.1, r.2 ++ r2.2)
    else (false, r.2)

/-- `prepareMockAssertion` (v2 variant). -/
def prepareMockAssertionV2 (w : World) (sessions : List String) :
    Bool × List Event :=
  prepareMockLoopV2 w.tcsA w.tcsB sessions

/-- One session of swap mode, v1 variant: the aligner sorts root-B by the
correlation header before the `Name`-equality check. -/
def prepareMockSessionV1 (tcsA tcsB : String → List TestCase) (s : String) :
    Bool × List Event :=
  match alignV1 (tcsA s) (tcsB s) with
  | .error _ => (false, [])
  | .ok pairs =>
    let r := swapPairs pairs
    let evs := r.1.flatMap fun p =>
      [Event.updated false s p.1.name, Event.updated true s p.2.name]
    match r.2 with
    | some _ => (false, evs)
    | none => (true, evs ++ [Event.mockSwapped s])

/-- The session loop of swap mode, v1 variant. -/
def prepareMockLoopV1 (tcsA tcsB : String → List TestCase) :
    List String → Bool × List Event
  | [] => (true, [])
  | s :: rest =>
    let r := prepareMockSessionV1 tcsA tcsB s
    if r.1 then
      let r2 := prepareMockLoopV1 tcsA tcsB rest
      (r2.1, r.2 ++ r2.2)
    else (false, r.2)

/-- `PrepareMockAssertion` (v1 variant): rejects an empty session list up
front, like `compareTestCases`. -/
def prepareMockAssertionV1 (w : World) (sessions : List String) :
    Bool × List Event :=
  if sessions.isEmpty then (false, [])
  else prepareMockLoopV1 w.tcsA w.tcsB sessions

/-- The two mutually exclusive run modes (`-test-assert` / `-mock-assert`;
setting both or neither panics before any work and is outside this
model). -/
inductive Mode
  | testAssert
  | mockAssert
deriving DecidableEq

/-- `main` of the v2 variant, from the session comparison on (path
resolution and store reads assumed successful): a session-set mismatch or
an empty session list reaches the bare `return`, which ends the process
with exit status 0; otherwise the mode verdict is turned into
`os.Exit(0)` / `os.Exit(1)`.  `compareSessions` sorts both slices in
place, so the session list handed to the mode handlers is sorted. -/
def mainRunV2 (mode : Mode) (w : World) : Nat × List Event :=
  if compareSessions w.tsets1 w.tsets2 then
    let sessions := sortStrings w.tsets1
    if sessions.isEmpty then (0, [])
    else
      match mode with
      | .testAssert =>
        let r := compareTestCasesV2 w sessions
        (if r.1 then 0 else 1, r.2)
      | .mockAssert =>
        let r := prepareMockAssertionV2 w sessions
        (if r.1 then 0 else 1, r.2)
  else (0, [])

/-- `main` of the v1 variant: no empty-session check in `main` (the mode
handlers reject the empty list themselves, returning `false`). -/
def mainRunV1 (mode : Mode) (w : World) : Nat × List Event :=
  if compareSessions w.tsets1 w.tsets2 then
    let sessions := sortStrings w.tsets1
    match mode with
    | .testAssert =>
      let r := compareTestCasesV1 w sessions
      (if r.1 then 0 else 1, r.2)
    | .mockAssert =>
      let r := prepareMockAssertionV1 w sessions
      (if r.1 then 0 else 1, r.2)
  else (0, [])

/-- A flat filesystem: path to content, `none` when no file exists at the
path. -/
def Fs : Type := String → Option String

/-- Whole-file write (`ioutil.WriteFile`, and `ioutil.TempFile`'s creation
of an empty file). -/
def Fs.write (fs : Fs) (p c : String) : Fs :=
  fun q => if q = p then some c else fs q

/-- File removal (`os.Remove`). -/
def Fs.remove (fs : Fs) (p : String) : Fs :=
  fun q => if q = p then none else fs q

/-- Fault injected into one run of `swapFiles`: no fault, an error returned
by one of the fallible operations (reads fail by the file being absent, so
they need no injected fault), or a process crash after file 1 has been
overwritten but before file 2 is — the window between steps 3 and 4 of the
swap procedure, in which Go's deferred cleanup does not run. -/
inductive SwapFault
  | noFault
  | createTempErr
  | writeTempErr
  | writeAErr
  | writeBErr
  | crashBeforeWriteB
deriving DecidableEq

/-- Result of one `swapFiles` run: the final filesystem, whether the
function returned `nil`, and whether the process crashed mid-swap (in
which case it never returned at all). -/
structure SwapOutcome where
  fs : Fs
  success : Bool
  crashed : Bool

/-- `swapFiles` (`util.go`, identical in both variants): read file 1,
create a temporary file (registering `defer os.Remove(tempFile.Name())`,
which runs on every return, success or error, but not on a crash), write
file 1's content to it, read file 2, overwrite file 1 with file 2's
content, overwrite file 2 with file 1's original content. -/
def swapFiles (fs : Fs) (p1 p2 temp : String) (fault : SwapFault) :
    SwapOutcome :=
  match fs p1 with
  | none => ⟨fs, false, false⟩
  | some c1 =>
    if fault = .createTempErr then ⟨fs, false, false⟩
    else
      let fs1 := fs.write temp ""
      if fault = .writeTempErr then ⟨fs1.remove temp, false, false⟩
      else
        let fs2 := fs1.write temp c1
        match fs2 p2 with
        | none => ⟨fs2.remove temp, false, false⟩
        | some c2 =>
          if fault = .writeAErr then ⟨fs2.remove temp, false, false⟩
          else
            let fs3 := fs2.write p1 c2
            if fault = .crashBeforeWriteB then ⟨fs3, false, true⟩
            else if fault = .writeBErr then ⟨fs3.remove temp, false, false⟩
            else
              let fs4 := fs3.write p2 c1
              ⟨fs4.remove temp, true, false⟩

/-- A test case named `a` whose correlation header is `2`. -/
def tcA2 : TestCase := ⟨"a", ⟨[(keployTestIdKey, "2")], 10⟩, ⟨11⟩⟩

/-- A test case named `b` whose correlation header is `1`. -/
def tcB1 : TestCase := ⟨"b", ⟨[(keployTestIdKey, "1")], 20⟩, ⟨21⟩⟩

/-- Root-A collection of the sort-key counterexample. -/
def cexTcsA : List TestCase := [tcA2, tcB1]

/-- Root-B collection of the sort-key counterexample: sorting it by `Name`
gives `[a, b]` while sorting it by the correlation header gives `[b, a]`. -/
def cexTcsB : List TestCase := [tcB1, tcA2]

/-- A single test case used by worlds whose collections do not matter. -/
def tcPlain : TestCase := ⟨"n", ⟨[], 0⟩, ⟨1⟩⟩

/-- World with a session-set mismatch: root A lists session `a`, root B
lists none. -/
def mismatchWorld : World :=
  { tsets1 := ["a"], tsets2 := [], tcsA := fun _ => [tcPlain],
    tcsB := fun _ => [tcPlain], config := .absent, matcher := fun _ _ _ => true }

/-- World whose configuration source is present but malformed, with one
session `s` on both roots holding identical single-case collections and a
matcher that accepts everything. -/
def malformedCfgWorld : World :=
  { tsets1 := ["s"], tsets2 := ["s"], tcsA := fun _ => [tcPlain],
    tcsB := fun _ => [tcPlain], config := .malformed,
    matcher := fun _ _ _ => true }

/-- World with empty session indices on both roots. -/
def emptyWorld : World :=
  { tsets1 := [], tsets2 := [], tcsA := fun _ => [], tcsB := fun _ => [],
    config := .absent, matcher := fun _ _ _ => true }

/-- Content of fixture file A in the fixture-swap witness. -/
def fixA : String := "fixtureA-bytes"

/-- Content of fixture file B in the fixture-swap witness. -/
def fixB : String := "fixtureB-bytes"

/-- Concrete filesystem for the fixture-swap witness: file `fa` holds
`fixtureA-bytes`, file `fb` holds `fixtureB-bytes`, nothing else exists. -/
def fsEx : Fs :=
  fun q => if q = "fa" then some fixA
           else if q = "fb" then some fixB else none

/-- A pair with equal names used by the identity-mismatch witness. -/
def pairOk : TestCase × TestCase :=
  (⟨"m", ⟨[], 1⟩, ⟨2⟩⟩, ⟨"m", ⟨[], 3⟩, ⟨4⟩⟩)

/-- A pair with differing names used by the identity-mismatch witness. -/
def pairBad : TestCase × TestCase := (tcA2, tcB1)

/-- The aggregate verdict the v2 mode handlers hand back to `main`. -/
def modeVerdictV2 (mode : Mode) (w : World) (sessions : List String) : Bool :=
  match mode with
  | .testAssert => (compareTestCasesV2 w sessions).1
  | .mockAssert => (prepareMockAssertionV2 w sessions).1

/-- The aggregate verdict the v1 mode handlers hand back to `main`. -/
def modeVerdictV1 (mode : Mode) (w : World) (sessions : List String) : Bool :=
  match mode with
  | .testAssert => (compareTestCasesV1 w sessions).1
  | .mockAssert => (prepareMockAssertionV1 w sessions).1

/-! ## Theorems -/

/-- Sorting preserves length, so the cardinality check of the aligners sees
the original collection sizes. -/
theorem sortByName_length (l : List TestCase) :
    (sortByName l).length = l.length :=
  List.length_insertionSort _ l

/-- Sorting by the correlation key preserves length. -/
theorem sortByTestId_length (l : List TestCase) :
    (sortByTestId l).length = l.length :=
  List.length_insertionSort _ l

/-- C7: the timestamp exchange of an aligned pair is a pure value swap —
afterwards each side holds the other's request and response timestamps
while every other field (name, header) is untouched — and it is an
involution: applying it twice restores both test cases. -/
theorem swapTimestamps_pure_involutive (a b : TestCase) :
    (swapTimestamps a b).1.httpReq.timestamp = b.httpReq.timestamp ∧
    (swapTimestamps a b).1.httpResp.timestamp = b.httpResp.timestamp ∧
    (swapTimestamps a b).2.httpReq.timestamp = a.httpReq.timestamp ∧
    (swapTimestamps a b).2.httpResp.timestamp = a.httpResp.timestamp ∧
    (swapTimestamps a b).1.name = a.name ∧
    (swapTimestamps a b).2.name = b.name ∧
    (swapTimestamps a b).1.httpReq.header = a.httpReq.header ∧
    (swapTimestamps a b).2.httpReq.header = b.httpReq.header ∧
    swapTimestamps (swapTimestamps a b).1 (swapTimestamps a b).2 = (a, b) :=
  ⟨rfl, rfl, rfl, rfl, rfl, rfl, rfl, rfl, rfl⟩

/-- C9: noise resolution has left-join semantics: joining with an empty
override returns the global mask, joining an empty global mask returns the
override, override entries win on overlapping paths, global-only paths pass
through, and the per-session resolution applies exactly this join when the
override table has an entry for the session (and the global mask alone
otherwise). -/
theorem leftJoinNoise_spec (g o : NoiseMask) :
    leftJoinNoise g emptyNoiseMask = g ∧
    leftJoinNoise emptyNoiseMask o = o ∧
    (∀ p v, o p = some v → leftJoinNoise g o p = some v) ∧
    (∀ p, o p = none → leftJoinNoise g o p = g p) ∧
    (∀ n s, Globalnoise.testsets n s = none → resolveNoise n s = n.global) ∧
    (∀ n s ts, Globalnoise.testsets n s = some ts →
      resolveNoise n s = leftJoinNoise n.global ts) := by
  refine ⟨?_, ?_, ?_, ?_, ?_, ?_⟩
  · funext p
    simp [leftJoinNoise, emptyNoiseMask]
  · funext p
    cases h : o p <;> simp [leftJoinNoise, emptyNoiseMask, h]
  · intro p v h
    simp [leftJoinNoise, h]
  · intro p h
    simp [leftJoinNoise, h]
  · intro n s h
    simp [resolveNoise, h]
  · intro n s ts h
    simp [resolveNoise, h]

/-- C5: neither aligner ever pairs collections of unequal length — a length
difference yields the cardinality error carrying both original counts, and
equal length `N` yields exactly `N` aligned pairs. -/
theorem align_cardinality (tcs1 tcs2 : List TestCase) :
    (tcs1.length ≠ tcs2.length →
      alignV1 tcs1 tcs2 = .error (tcs1.length, tcs2.length) ∧
      alignV2 tcs1 tcs2 = .error (tcs1.length, tcs2.length)) ∧
    (tcs1.length = tcs2.length →
      ∃ ps qs, alignV1 tcs1 tcs2 = .ok ps ∧ ps.length = tcs1.length ∧
        alignV2 tcs1 tcs2 = .ok qs ∧ qs.length = tcs1.length) := by
  constructor
  · intro h
    constructor <;>
      simp [alignV1, alignV2, sortByName_length, sortByTestId_length, h]
  · intro h
    refine ⟨(sortByName tcs1).zip (sortByTestId tcs2),
            (sortByName tcs1).zip (sortByName tcs2), ?_, ?_, ?_, ?_⟩ <;>
      simp [alignV1, alignV2, sortByName_length, sortByTestId_length, h,
        List.length_zip]

/-- The sorted session list is a permutation of the input. -/
theorem sortStrings_perm (l : List String) : (sortStrings l).Perm l :=
  List.perm_insertionSort _ l

/-- The sorted session list is sorted ascending. -/
theorem sortStrings_sorted (l : List String) :
    List.Sorted (· ≤ ·) (sortStrings l) :=
  List.sorted_insertionSort _ l

/-- The index loop of `compareSessions` accepts a list against itself. -/
theorem sessionLoop_self : ∀ l : List String, sessionLoop l l = .ok
  | [] => rfl
  | a :: as => by simp [sessionLoop, sessionLoop_self as]

/-- If the index loop accepts two equal-length lists, they are equal. -/
theorem sessionLoop_ok_eq : ∀ l1 l2 : List String, l1.length = l2.length →
    sessionLoop l1 l2 = .ok → l1 = l2
  | [], [], _, _ => rfl
  | a :: as, b :: bs, hl, h => by
    by_cases hab : a = b
    · subst hab
      simp only [sessionLoop, ne_eq, not_true_eq_false, if_false, ite_false] at h
      have := sessionLoop_ok_eq as bs (by simpa using hl) (by simpa using h)
      simp [this]
    · simp [sessionLoop, hab] at h

/-- If the index loop reports a name mismatch, the reported pair sits at
the first index where the two lists disagree. -/
theorem sessionLoop_mismatch : ∀ l1 l2 : List String, ∀ a b : String,
    sessionLoop l1 l2 = .nameMismatch a b →
    a ≠ b ∧ ∃ i : Nat, l1[i]? = some a ∧ l2[i]? = some b ∧
      ∀ j : Nat, j < i → l1[j]? = l2[j]?
  | [], l2, a, b, h => by simp [sessionLoop] at h
  | x :: xs, [], a, b, h => by simp [sessionLoop] at h
  | x :: xs, y :: ys, a, b, h => by
    by_cases hxy : x = y
    · subst hxy
      simp only [sessionLoop, ne_eq, not_true_eq_false, if_false, ite_false] at h
      obtain ⟨hab, i, h1, h2, h3⟩ := sessionLoop_mismatch xs ys a b h
      refine ⟨hab, i + 1, by simpa using h1, by simpa using h2, ?_⟩
      intro j hj
      cases j with
      | zero => simp
      | succ j => simpa using h3 j (by omega)
    · simp only [sessionLoop, ne_eq, hxy, not_false_eq_true, if_true,
        ite_true, SessionCmp.nameMismatch.injEq] at h
      obtain ⟨ha, hb⟩ := h
      subst ha; subst hb
      exact ⟨hxy, 0, by simp, by simp, fun j hj => by omega⟩

/-- C4: the Session Set Reconciler reports equality exactly on
permutations: `compareSessions` returns `true` iff the two
session-identifier lists are permutations of each other; on a length
difference it reports both counts, on an element difference it reports the
first disagreeing pair of the two sorted lists; and whenever it reports a
mismatch, both `main` variants end the run with an empty event trace — no
comparison or swap is performed. -/
theorem compareSessions_reconciler (s1 s2 : List String) :
    (compareSessions s1 s2 = true ↔ s1.Perm s2) ∧
    (s1.length ≠ s2.length →
      compareSessionsR s1 s2 = .countMismatch s1.length s2.length) ∧
    (∀ a b, compareSessionsR s1 s2 = .nameMismatch a b →
      a ≠ b ∧ ∃ i : Nat, (sortStrings s1)[i]? = some a ∧
        (sortStrings s2)[i]? = some b ∧
        ∀ j : Nat, j < i → (sortStrings s1)[j]? = (sortStrings s2)[j]?) ∧
    (∀ (mode : Mode) (w : World),
      compareSessions w.tsets1 w.tsets2 = false →
      mainRunV2 mode w = (0, []) ∧ mainRunV1 mode w = (0, [])) := by
  refine ⟨⟨?_, ?_⟩, ?_, ?_, ?_⟩
  · intro h
    by_cases hl : s1.length = s2.length
    · have hR : compareSessionsR s1 s2 =
          sessionLoop (sortStrings s1) (sortStrings s2) := by
        simp [compareSessionsR, hl]
      have hok : sessionLoop (sortStrings s1) (sortStrings s2) = .ok := by
        cases hsl : sessionLoop (sortStrings s1) (sortStrings s2) <;>
          simp [compareSessions, hR, hsl] at h ⊢
      have hlen : (sortStrings s1).length = (sortStrings s2).length := by
        simpa [sortStrings, List.length_insertionSort] using hl
      have heq := sessionLoop_ok_eq _ _ hlen hok
      exact (sortStrings_perm s1).symm.trans (heq ▸ sortStrings_perm s2)
    · simp [compareSessions, compareSessionsR, hl] at h
  · intro hp
    have hl : s1.length = s2.length := hp.length_eq
    have heq : sortStrings s1 = sortStrings s2 :=
      List.eq_of_perm_of_sorted
        ((sortStrings_perm s1).trans (hp.trans (sortStrings_perm s2).symm))
        (sortStrings_sorted s1) (sortStrings_sorted s2)
    simp [compareSessions, compareSessionsR, hl, heq, sessionLoop_self]
  · intro h
    simp [compareSessionsR, h]
  · intro a b h
    by_cases hl : s1.length = s2.length
    · simp only [compareSessionsR, hl, ne_eq, not_true_eq_false, if_false,
        ite_false] at h
      exact sessionLoop_mismatch _ _ a b h
    · simp [compareSessionsR, hl] at h
  · intro mode w h
    constructor <;> simp [mainRunV2, mainRunV1, h]

/-- The swap loop processes pairs with equal names until the first name
mismatch: the pairs before it are swapped and persisted, the offending pair
is reported by its two names, and nothing at or after it is touched. -/
theorem swapPairs_break : ∀ (pre rest : List (TestCase × TestCase))
    (a b : TestCase),
    (∀ p ∈ pre, (Prod.fst p).name = (Prod.snd p).name) → a.name ≠ b.name →
    swapPairs (pre ++ (a, b) :: rest) =
      (pre.map fun p => swapTimestamps p.1 p.2, some (a.name, b.name))
  | [], rest, a, b, _, hab => by simp [swapPairs, hab]
  | (x, y) :: pre, rest, a, b, hpre, hab => by
    have hxy : x.name = y.name := hpre (x, y) (by simp)
    have ih := swapPairs_break pre rest a b
      (fun p hp => hpre p (List.mem_cons_of_mem _ hp)) hab
    simp [swapPairs, hxy, ih]

/-- A failing session fails the whole swap-mode run. -/
theorem prepareMockLoopV2_false (tcsA tcsB : String → List TestCase) :
    ∀ (sessions : List String) (s : String), s ∈ sessions →
    (prepareMockSessionV2 tcsA tcsB s).1 = false →
    (prepareMockLoopV2 tcsA tcsB sessions).1 = false
  | t :: rest, s, hmem, hs => by
    rcases List.mem_cons.mp hmem with h | h
    · subst h
      simp [prepareMockLoopV2, hs]
    · by_cases ht : (prepareMockSessionV2 tcsA tcsB t).1
      · simp [prepareMockLoopV2, ht,
          prepareMockLoopV2_false tcsA tcsB rest s h hs]
      · simp only [Bool.not_eq_true] at ht
        simp [prepareMockLoopV2, ht]

/-- C6: in swap mode, the pair loop verifies `Name` equality before any
mutation: at the first aligned pair whose names differ, the run fails with
the two names, only the earlier pairs have been swapped and persisted, and
the offending pair itself is neither exchanged nor persisted; the session
yields `false`, which fails the whole run. -/
theorem swap_checks_identity (pre rest : List (TestCase × TestCase))
    (a b : TestCase)
    (hpre : ∀ p ∈ pre, (Prod.fst p).name = (Prod.snd p).name)
    (hab : a.name ≠ b.name) :
    swapPairs (pre ++ (a, b) :: rest) =
      (pre.map fun p => swapTimestamps p.1 p.2, some (a.name, b.name)) ∧
    (∀ (tcsA tcsB : String → List TestCase) (s : String),
      alignV2 (tcsA s) (tcsB s) = .ok (pre ++ (a, b) :: rest) →
      (prepareMockSessionV2 tcsA tcsB s).1 = false) ∧
    (∀ (tcsA tcsB : String → List TestCase) (sessions : List String)
        (s : String), s ∈ sessions →
      (prepareMockSessionV2 tcsA tcsB s).1 = false →
      (prepareMockLoopV2 tcsA tcsB sessions).1 = false) := by
  refine ⟨swapPairs_break pre rest a b hpre hab, ?_, ?_⟩
  · intro tcsA tcsB s halign
    simp [prepareMockSessionV2, halign, swapPairs_break pre rest a b hpre hab]
  · intro tcsA tcsB sessions s hmem hs
    exact prepareMockLoopV2_false tcsA tcsB sessions s hmem hs

/-- C6 witness: with one well-named pair followed by a pair named `a` / `b`,
the loop swaps exactly the first pair and reports the names of the second. -/
theorem swap_checks_identity_witness :
    swapPairs [pairOk, pairBad] =
      ([swapTimestamps pairOk.1 pairOk.2], some (tcA2.name, tcB1.name)) :=
  (swap_checks_identity [pairOk] [] tcA2 tcB1 (by decide) (by decide)).1

/-- Positional pairing: an entry of the zipped pair list is exactly the two
entries at the same index of the sorted collections. -/
theorem zip_index : ∀ (l1 l2 : List TestCase) (i : Nat) (a b : TestCase),
    (l1.zip l2)[i]? = some (a, b) → l1[i]? = some a ∧ l2[i]? = some b
  | x :: xs, y :: ys, 0, a, b, h => by
    simp only [List.zip_cons_cons, List.getElem?_cons_zero,
      Option.some.injEq, Prod.mk.injEq] at h
    simp [h.1, h.2]
  | x :: xs, y :: ys, i + 1, a, b, h => by
    simp only [List.zip_cons_cons, List.getElem?_cons_succ] at h ⊢
    exact zip_index xs ys i a b h

/-- C3 (amended): the v1 aligner sorts root-A ascending by `Name` and
root-B ascending by the `Keploy-Test-Id` correlation header, while the v2
aligner sorts both collections ascending by `Name`; in both variants the
sorted collections are permutations of the inputs and are paired
positionally, index for index. -/
theorem aligners_sort_and_pair (tcs1 tcs2 : List TestCase)
    (h : tcs1.length = tcs2.length) :
    alignV1 tcs1 tcs2 = .ok ((sortByName tcs1).zip (sortByTestId tcs2)) ∧
    alignV2 tcs1 tcs2 = .ok ((sortByName tcs1).zip (sortByName tcs2)) ∧
    List.Sorted leName (sortByName tcs1) ∧
    List.Sorted leTestId (sortByTestId tcs2) ∧
    List.Sorted leName (sortByName tcs2) ∧
    (sortByName tcs1).Perm tcs1 ∧ (sortByTestId tcs2).Perm tcs2 ∧
    (sortByName tcs2).Perm tcs2 ∧
    (∀ (i : Nat) (a b : TestCase),
      ((sortByName tcs1).zip (sortByTestId tcs2))[i]? = some (a, b) →
      (sortByName tcs1)[i]? = some a ∧ (sortByTestId tcs2)[i]? = some b) ∧
    (∀ (i : Nat) (a b : TestCase),
      ((sortByName tcs1).zip (sortByName tcs2))[i]? = some (a, b) →
      (sortByName tcs1)[i]? = some a ∧ (sortByName tcs2)[i]? = some b) := by
  refine ⟨?_, ?_, List.sorted_insertionSort _ _, List.sorted_insertionSort _ _,
    List.sorted_insertionSort _ _, List.perm_insertionSort _ _,
    List.perm_insertionSort _ _, List.perm_insertionSort _ _,
    fun i a b => zip_index _ _ i a b, fun i a b => zip_index _ _ i a b⟩ <;>
    simp [alignV1, alignV2, sortByName_length, sortByTestId_length, h]

/-- C3 witness: the v1 aligner on the concrete collections pairs the
name-sorted root-A entries with the correlation-key-sorted root-B
entries. -/
theorem aligners_sort_and_pair_witness :
    alignV1 cexTcsA cexTcsB =
      .ok ((sortByName cexTcsA).zip (sortByTestId cexTcsB)) :=
  (aligners_sort_and_pair cexTcsA cexTcsB rfl).1

/-- C3 counterexample: in the v2 variant the test-bench collection is
sorted by `Name`, not by the correlation key — on a collection where the
two orders differ, the v2 aligner does not produce the pairing the claim
describes. -/
theorem alignV2_ignores_correlation_key :
    alignV2 cexTcsA cexTcsB ≠
      .ok ((sortByName cexTcsA).zip (sortByTestId cexTcsB)) := by
  have h1 : leName tcA2 tcB1 := by
    show ("a" : String) ≤ "b"
    rw [String.le_iff_toList_le]; decide
  have h2 : leTestId tcB1 tcA2 := by
    show ("1" : String) ≤ "2"
    rw [String.le_iff_toList_le]; decide
  have h3 : ¬ leName tcB1 tcA2 := by
    show ¬ ("b" : String) ≤ "a"
    rw [String.le_iff_toList_le]; decide
  have e1 : sortByName cexTcsA = [tcA2, tcB1] := by
    simp [sortByName, cexTcsA, List.orderedInsert, h1]
  have e2 : sortByTestId cexTcsB = [tcB1, tcA2] := by
    simp [sortByTestId, cexTcsB, List.orderedInsert, h2]
  have e3 : sortByName cexTcsB = [tcA2, tcB1] := by
    simp [sortByName, cexTcsB, List.orderedInsert, h3]
  have eA : alignV2 cexTcsA cexTcsB = .ok [(tcA2, tcA2), (tcB1, tcB1)] := by
    simp [alignV2, e1, e3]
  have hne : tcA2 ≠ tcB1 := by decide
  rw [eA, e1, e2]
  intro h
  have h' := Except.ok.inj h
  simp only [List.zip_cons_cons, List.zip_nil_right, List.cons.injEq,
    Prod.mk.injEq] at h'
  exact hne h'.1.2

/-- C1 (amended): once the session reconciler has passed (and, in the v2
variant, the session list is non-empty), the process exit status is
determined by the aggregate mode verdict alone — 0 when the handler
reports success, 1 otherwise; but when the reconciler reports a mismatch,
both variants fall through to the bare `return` in `main`, so the process
ends with exit status 0 and an empty trace, not with the failure exit
code. -/
theorem main_exit_verdict (mode : Mode) (w : World) :
    (compareSessions w.tsets1 w.tsets2 = false →
      mainRunV2 mode w = (0, []) ∧ mainRunV1 mode w = (0, [])) ∧
    (compareSessions w.tsets1 w.tsets2 = true →
      ((sortStrings w.tsets1).isEmpty = true → (mainRunV2 mode w).1 = 0) ∧
      ((sortStrings w.tsets1).isEmpty = false →
        (mainRunV2 mode w).1 =
          if modeVerdictV2 mode w (sortStrings w.tsets1) then 0 else 1) ∧
      ((mainRunV1 mode w).1 =
        if modeVerdictV1 mode w (sortStrings w.tsets1) then 0 else 1)) := by
  constructor
  · intro h
    constructor <;> simp [mainRunV2, mainRunV1, h]
  · intro h
    refine ⟨?_, ?_, ?_⟩
    · intro he
      cases mode <;> simp [mainRunV2, h, he]
    · intro he
      cases mode <;> simp [mainRunV2, modeVerdictV2, h, he]
    · cases mode <;> simp [mainRunV1, modeVerdictV1, h]

/-- C1 witness: on a world whose reconciler passes with one session, the
v2 run in test-assert mode exits with the verdict's code. -/
theorem main_exit_verdict_witness :
    (mainRunV2 Mode.testAssert malformedCfgWorld).1 =
      if modeVerdictV2 Mode.testAssert malformedCfgWorld
          (sortStrings malformedCfgWorld.tsets1) then 0 else 1 :=
  ((main_exit_verdict Mode.testAssert malformedCfgWorld).2 (by decide)).2.1
    (by decide)

/-- C1 counterexample: a session-set mismatch (root A lists `a`, root B
lists nothing) is a detected failure, yet both `main` variants end the
process with exit status 0 in both modes — not with the failure exit code
1 the claim requires. -/
theorem session_mismatch_exits_zero :
    compareSessions mismatchWorld.tsets1 mismatchWorld.tsets2 = false ∧
    (mainRunV2 Mode.testAssert mismatchWorld).1 = 0 ∧
    (mainRunV1 Mode.testAssert mismatchWorld).1 = 0 ∧
    (mainRunV2 Mode.mockAssert mismatchWorld).1 = 0 ∧
    (mainRunV1 Mode.mockAssert mismatchWorld).1 = 0 := by decide

/-- C2 (amended): an absent configuration source yields the empty global
mask and empty override table with no error, and the comparison proceeds
unmasked; a present-but-malformed source makes the loader return the parse
error — but `compareTestCases` only logs it and proceeds with the same
empty masks, behaving exactly as if the source were absent (in both
variants), instead of failing the run. -/
theorem noise_config_nonfatal :
    getNoiseFromConfigV2 ConfigSrc.absent = (emptyGlobalnoise, none) ∧
    getNoiseFromConfigV2 ConfigSrc.malformed =
      (emptyGlobalnoise, some cfgParseErrV2) ∧
    (∀ (w : World) (sessions : List String),
      compareTestCasesV2 { w with config := ConfigSrc.malformed } sessions =
        compareTestCasesV2 { w with config := ConfigSrc.absent } sessions) ∧
    (∀ (w : World) (sessions : List String),
      compareTestCasesV2 { w with config := ConfigSrc.absent } sessions =
        compareLoopV2 w.tcsA w.tcsB w.matcher emptyGlobalnoise sessions) ∧
    (∀ (w : World) (sessions : List String),
      compareTestCasesV1 { w with config := ConfigSrc.malformed } sessions =
        compareTestCasesV1 { w with config := ConfigSrc.absent } sessions) :=
  ⟨rfl, rfl, fun _ _ => rfl, fun _ _ => rfl, fun _ _ => rfl⟩

/-- C2 counterexample: with a present but malformed configuration source,
the v2 loader does return a parse error, yet the run proceeds — a
comparison is performed (non-empty trace) and the process exits 0 — rather
than failing as the claim requires. -/
theorem malformed_config_run_proceeds :
    (getNoiseFromConfigV2 ConfigSrc.malformed).2 = some cfgParseErrV2 ∧
    (mainRunV2 Mode.testAssert malformedCfgWorld).1 = 0 ∧
    (mainRunV2 Mode.testAssert malformedCfgWorld).2 ≠ [] := by decide

/-- C8: the mock-fixture swap is content-preserving and crash-safe.  With
the two fixture paths distinct and a fresh temporary name: a fault-free
run swaps the two file contents, removes the temporary file and touches
nothing else; a crash after fixture A is overwritten but before fixture B
is (the window between steps 3 and 4, where the deferred cleanup never
runs) leaves A's original content parked in the temporary file for
recovery; and on every actual exit path — success or error return — the
deferred `os.Remove` leaves no temporary file behind. -/
theorem swapFiles_crash_safe (fs : Fs) (p1 p2 temp c1 c2 : String)
    (hp : p1 ≠ p2) (ht1 : temp ≠ p1) (ht2 : temp ≠ p2)
    (h1 : fs p1 = some c1) (h2 : fs p2 = some c2) (h0 : fs temp = none) :
    ((swapFiles fs p1 p2 temp .noFault).success = true ∧
      (swapFiles fs p1 p2 temp .noFault).fs p1 = some c2 ∧
      (swapFiles fs p1 p2 temp .noFault).fs p2 = some c1 ∧
      (swapFiles fs p1 p2 temp .noFault).fs temp = none ∧
      ∀ q, q ≠ p1 → q ≠ p2 → q ≠ temp →
        (swapFiles fs p1 p2 temp .noFault).fs q = fs q) ∧
    ((swapFiles fs p1 p2 temp .crashBeforeWriteB).crashed = true ∧
      (swapFiles fs p1 p2 temp .crashBeforeWriteB).fs temp = some c1 ∧
      (swapFiles fs p1 p2 temp .crashBeforeWriteB).fs p1 = some c2 ∧
      (swapFiles fs p1 p2 temp .crashBeforeWriteB).fs p2 = some c2) ∧
    (∀ fault : SwapFault, (swapFiles fs p1 p2 temp fault).crashed = false →
      (swapFiles fs p1 p2 temp fault).fs temp = none) := by
  have n1 : p1 ≠ temp := Ne.symm ht1
  have n2 : p2 ≠ temp := Ne.symm ht2
  have n3 : p2 ≠ p1 := Ne.symm hp
  refine ⟨⟨?_, ?_, ?_, ?_, fun q hq1 hq2 hq3 => ?_⟩, ⟨?_, ?_, ?_, ?_⟩,
    fun fault hcr => ?_⟩
  · simp [swapFiles, Fs.write, Fs.remove, h1, h2, n2]
  · simp [swapFiles, Fs.write, Fs.remove, h1, h2, n1, n2, n3, hp]
  · simp [swapFiles, Fs.write, Fs.remove, h1, h2, n1, n2, n3, hp]
  · simp [swapFiles, Fs.write, Fs.remove, h1, h2, n1, n2, n3, hp]
  · simp [swapFiles, Fs.write, Fs.remove, h1, h2, n1, n2, n3, hp,
      hq1, hq2, hq3]
  · simp [swapFiles, Fs.write, Fs.remove, h1, h2, n1, n2, n3, hp]
  · simp [swapFiles, Fs.write, Fs.remove, h1, h2, n1, n2, n3, hp, ht1, ht2]
  · simp [swapFiles, Fs.write, Fs.remove, h1, h2, n1, n2, n3, hp, ht1, ht2]
  · simp [swapFiles, Fs.write, Fs.remove, h1, h2, n1, n2, n3, hp, ht1, ht2]
  · cases fault <;>
      simp_all [swapFiles, Fs.write, Fs.remove, h1, h2, h0, n1, n2, n3, hp]

/-- C8 witness: swapping two concrete fixture files exchanges their
contents. -/
theorem swapFiles_crash_safe_witness :
    (swapFiles fsEx "fa" "fb" "tmp" .noFault).fs "fa" = some fixB ∧
    (swapFiles fsEx "fa" "fb" "tmp" .noFault).fs "fb" = some fixA ∧
    (swapFiles fsEx "fa" "fb" "tmp" .noFault).fs "tmp" = none := by
  have h := swapFiles_crash_safe fsEx "fa" "fb" "tmp" fixA fixB
    (by decide) (by decide) (by decide) (by decide) (by decide) (by decide)
  exact ⟨h.1.2.1, h.1.2.2.1, h.1.2.2.2.1⟩

/-- C10: in the v1 variant an empty session list is never reported as
success: both mode handlers reject it with `false`, so `main` — whose
reconciler accepts two empty session indices — calls `os.Exit(1)` in
either mode rather than succeeding vacuously. -/
theorem empty_sessions_fail_v1 (w : World) (mode : Mode) :
    compareTestCasesV1 w [] = (false, []) ∧
    prepareMockAssertionV1 w [] = (false, []) ∧
    (w.tsets1 = [] → w.tsets2 = [] → (mainRunV1 mode w).1 = 1) := by
  refine ⟨rfl, rfl, fun h1 h2 => ?_⟩
  cases mode <;>
    simp [mainRunV1, h1, h2, compareSessions, compareSessionsR, sortStrings,
      sessionLoop, compareTestCasesV1, prepareMockAssertionV1]

/-- C10 witness: on a world with empty session indices, the v1 run exits
with status 1 in test-assert mode. -/
theorem empty_sessions_fail_v1_witness :
    (mainRunV1 Mode.testAssert emptyWorld).1 = 1 :=
  (empty_sessions_fail_v1 emptyWorld Mode.testAssert).2.2 rfl rfl

/-- C5 witness: on collections of lengths 0 and 1 both aligners report the
cardinality mismatch with both counts. -/
theorem align_cardinality_witness :
    alignV1 [] [tcPlain] = .error (0, 1) ∧
    alignV2 [] [tcPlain] = .error (0, 1) :=
  (align_cardinality [] [tcPlain]).1 (by decide)

/-- C4 witness: two concrete lists that are permutations of each other are
accepted by the reconciler. -/
theorem compareSessions_reconciler_witness :
    compareSessions ["s"] ["s"] = true :=
  (compareSessions_reconciler ["s"] ["s"]).1.mpr (List.Perm.refl _)
